import Mathlib

/-!
# Verification of the `reading-in-sentinel-data` notebook

A shallow embedding of `notebook-demos/reading-in-sentinel-data.ipynb` from
the geopyspark repository.  The notebook downloads three Sentinel-2 JPEG2000
band files, decodes them with rasterio, stacks the decoded bands into one
multiband numpy array, wraps the metadata and the array into a
`(ProjectedExtent, Tile)` pair, parallelizes that pair into a one-element RDD
and builds a `RasterLayer` from it.

The embedding has two layers:

* a **value semantics** (`runPipeline`): the notebook body as a pure function
  of a `decode` oracle, which stands for what `rasterio.open(path)` yields for
  each of the three files; numpy unsigned-integer dtypes are modelled as bit
  widths, and the cast performed by `np.array(arrs, dtype=arrs[0].dtype)` as
  reduction modulo `2 ^ width`;
* a **trace semantics** (`callSeq`, `stepTrace`, `execCalls`): the fixed
  sequence of calls the notebook cells make into shell / external libraries,
  used for the ordering, error-propagation and external-surface claims.
-/

namespace SentinelNotebook

/-- A single decoded raster band as produced by `f.read(1)`: an unsigned
integer element type (recorded as its bit width, e.g. 16 for `uint16`) and
the flattened pixel values. -/
structure Band where
  dtype : Nat
  data : List Nat
deriving DecidableEq

/-- The bounding box reported by `f.bounds` (rasterio order:
left, bottom, right, top). -/
structure Bounds where
  left : Int
  bottom : Int
  right : Int
  top : Int
deriving DecidableEq

/-- The parts of a rasterio dataset handle the notebook reads: the first
band (`f.read(1)`), the bounds (`f.bounds`), the `init` entry of
`f.crs.to_dict()` and the nodata value (`f.nodata`, possibly `None`). -/
structure DecodedFile where
  band1 : Band
  bounds : Bounds
  crsInit : String
  nodata : Option Int
deriving DecidableEq

/-- `jp2s = ["/tmp/B01.jp2", "/tmp/B09.jp2", "/tmp/B10.jp2"]` from the
decode cell. -/
def jp2s : List String := ["/tmp/B01.jp2", "/tmp/B09.jp2", "/tmp/B10.jp2"]

/-- The three URLs passed to `curl` in the download cell. -/
def curlURLs : List String :=
  ["http://sentinel-s2-l1c.s3.amazonaws.com/tiles/32/T/NM/2017/1/4/0/B01.jp2",
   "http://sentinel-s2-l1c.s3.amazonaws.com/tiles/32/T/NM/2017/1/4/0/B09.jp2",
   "http://sentinel-s2-l1c.s3.amazonaws.com/tiles/32/T/NM/2017/1/4/0/B10.jp2"]

/-- The host prefix shared by the three download URLs. -/
def bucketPrefix : String := "http://sentinel-s2-l1c.s3.amazonaws.com/"

/-- Casting a pixel value to an unsigned integer type of width `w`
(numpy unsigned-integer cast semantics: reduction modulo `2 ^ w`). -/
def castTo (w : Nat) (v : Nat) : Nat := v % 2 ^ w

/-- The stacked multiband array produced by the stack cell: a single dtype
and one row of pixels per band, first dimension indexed by band. -/
structure Multiband where
  dtype : Nat
  bands : List (List Nat)
deriving DecidableEq

/-- `np.array(arrs, dtype=d)`: every band is cast elementwise to the target
dtype `d`. -/
def npStack (d : Nat) (arrs : List Band) : Multiband :=
  ⟨d, arrs.map fun b => b.data.map (castTo d)⟩

/-- The decode loop of the notebook:
`for jp2 in jp2s: with rasterio.open(jp2) as f: arrs.append(f.read(1))`.
Returns the accumulated band list and the final value of the loop variable
`f` (the dataset handle of the last file, still bound after the loop). -/
def decodeLoop (decode : String → DecodedFile) :
    List String → List Band → Option DecodedFile → List Band × Option DecodedFile
  | [], arrs, f => (arrs, f)
  | p :: ps, arrs, _ =>
      let fp := decode p
      decodeLoop decode ps (arrs ++ [fp.band1]) (some fp)

/-- Decimal value of a digit character. -/
def digitVal (c : Char) : Nat := c.toNat - 48

/-- Python `int(s)` on a string: succeeds exactly when the string is a
nonempty run of decimal digits (any other input raises `ValueError`,
modelled as `none`). -/
def pyInt (s : String) : Option Nat :=
  if s.data ≠ [] ∧ s.data.all Char.isDigit then
    some (s.data.foldl (fun a c => a * 10 + digitVal c) 0)
  else none

/-- Python slicing `s[n:]`. -/
def pySliceFrom (s : String) (n : Nat) : String := ⟨s.data.drop n⟩

/-- `gps.Extent(xmin, ymin, xmax, ymax)`. -/
structure Extent where
  xmin : Int
  ymin : Int
  xmax : Int
  ymax : Int
deriving DecidableEq

/-- `gps.Extent(*f.bounds)`: the four positional components of the rasterio
bounds, in rasterio order (left, bottom, right, top). -/
def Extent.ofBounds (b : Bounds) : Extent := ⟨b.left, b.bottom, b.right, b.top⟩

/-- `gps.ProjectedExtent(extent=..., epsg=...)`. -/
structure ProjectedExtent where
  extent : Extent
  epsg : Nat
deriving DecidableEq

/-- `gps.Tile.from_numpy_array(numpy_array=..., no_data_value=...)`. -/
structure Tile where
  cells : Multiband
  no_data_value : Option Int
deriving DecidableEq

/-- `gps.LayerType`. -/
inductive LayerType
  | SPATIAL
  | SPACETIME
deriving DecidableEq

/-- `gps.RasterLayer.from_numpy_rdd(layer_type=..., numpy_rdd=...)`; the RDD
is a list of key-value pairs. -/
structure RasterLayer where
  layer_type : LayerType
  rdd : List (ProjectedExtent × Tile)
deriving DecidableEq

/-- The values the notebook leaves bound after the last cell. -/
structure RunResult where
  extent : Extent
  projected_extent : ProjectedExtent
  tile : Tile
  rdd : List (ProjectedExtent × Tile)
  raster_layer : RasterLayer
deriving DecidableEq

/-- The notebook body after the downloads, as a function of the decode
oracle (what `rasterio.open` yields at each path).  `none` models an
uncaught exception aborting the run: `arrs[0]` on an empty list, or
`int(...)` on a non-numeric slice. -/
def runPipeline (decode : String → DecodedFile) : Option RunResult :=
  let res := decodeLoop decode jp2s [] none
  let arrs := res.1
  match res.2, arrs.head? with
  | some f, some a0 =>
      let data := npStack a0.dtype arrs
      let extent := Extent.ofBounds f.bounds
      match pyInt (pySliceFrom f.crsInit 5) with
      | some code =>
          let pe : ProjectedExtent := ⟨extent, code⟩
          let tile : Tile := ⟨data, f.nodata⟩
          let rdd := [(pe, tile)]
          some ⟨extent, pe, tile, rdd, ⟨LayerType.SPATIAL, rdd⟩⟩
      | none => none
  | _, _ => none

/-- The metadata attached to the layer: extent, EPSG code, nodata value. -/
def metadataOf (r : Option RunResult) : Option (Extent × Nat × Option Int) :=
  r.map fun x => (x.extent, x.projected_extent.epsg, x.tile.no_data_value)

/-! ## Trace semantics: the calls the notebook makes outside its own code -/

/-- One call the notebook makes outside its own code: a shell `curl`
invocation, a call into rasterio, numpy, geopyspark or pyspark, or the
Python builtin `int`. -/
inductive ExtCall
  | curl (url : String)
  | geopysparkConf
  | sparkContext
  | rasterioOpen (path : String)
  | rasterioRead (path : String)
  | npArrayCall
  | gpsExtent
  | crsToDict
  | intCall
  | gpsProjectedExtent
  | tileFromNumpyArray
  | parallelize
  | fromNumpyRdd
deriving DecidableEq

/-- The six pipeline steps named by the specification. -/
inductive Step
  | download
  | decode
  | stack
  | wrap
  | constructRDD
  | constructLayer
deriving DecidableEq

/-- Position of a step in the specified order. -/
def Step.idx : Step → Nat
  | .download => 0
  | .decode => 1
  | .stack => 2
  | .wrap => 3
  | .constructRDD => 4
  | .constructLayer => 5

/-- The notebook's straight-line segments, in cell order.  Each segment is a
pipeline step (or `none` for the Spark-setup and display-only segments)
paired with the calls that segment makes, in evaluation order.  The decode
cell holds both the decode loop and the `np.array` stack, hence two
segments; cells 11 and 12 re-evaluate `f.crs.to_dict()` and `int(...)` for
display only. -/
def pipelineSegments : List (Option Step × List ExtCall) :=
  [ (some .download,
      [.curl "http://sentinel-s2-l1c.s3.amazonaws.com/tiles/32/T/NM/2017/1/4/0/B01.jp2",
       .curl "http://sentinel-s2-l1c.s3.amazonaws.com/tiles/32/T/NM/2017/1/4/0/B09.jp2",
       .curl "http://sentinel-s2-l1c.s3.amazonaws.com/tiles/32/T/NM/2017/1/4/0/B10.jp2"]),
    (none, []),
    (none, [.geopysparkConf, .sparkContext]),
    (some .decode,
      [.rasterioOpen "/tmp/B01.jp2", .rasterioRead "/tmp/B01.jp2",
       .rasterioOpen "/tmp/B09.jp2", .rasterioRead "/tmp/B09.jp2",
       .rasterioOpen "/tmp/B10.jp2", .rasterioRead "/tmp/B10.jp2"]),
    (some .stack, [.npArrayCall]),
    (some .wrap, [.gpsExtent, .crsToDict, .intCall, .gpsProjectedExtent]),
    (none, [.crsToDict]),
    (none, [.crsToDict, .intCall]),
    (some .wrap, [.tileFromNumpyArray]),
    (some .constructRDD, [.parallelize]),
    (some .constructLayer, [.fromNumpyRdd]) ]

/-- All calls the notebook makes, in evaluation order. -/
def callSeq : List ExtCall := (pipelineSegments.map Prod.snd).flatten

/-- The pipeline step of each call in evaluation order (calls of
non-pipeline segments omitted). -/
def stepTrace : List Step :=
  (pipelineSegments.map fun seg =>
    match seg.1 with
    | some s => seg.2.map fun _ => s
    | none => []).flatten

/-- How many calls a pipeline step makes. -/
def stepCallCount (s : Step) : Nat := (stepTrace.filter fun t => t = s).length

/-- The external libraries whose APIs the notebook calls.  `curl` is a shell
command and `int` a Python builtin, so neither maps to a library. -/
inductive Library
  | rasterio
  | numpy
  | geopyspark
  | pyspark
deriving DecidableEq

/-- The library each call belongs to, if any. -/
def libraryOf : ExtCall → Option Library
  | .curl _ => none
  | .geopysparkConf => some .geopyspark
  | .sparkContext => some .pyspark
  | .rasterioOpen _ => some .rasterio
  | .rasterioRead _ => some .rasterio
  | .npArrayCall => some .numpy
  | .gpsExtent => some .geopyspark
  | .crsToDict => some .rasterio
  | .intCall => none
  | .gpsProjectedExtent => some .geopyspark
  | .tileFromNumpyArray => some .geopyspark
  | .parallelize => some .pyspark
  | .fromNumpyRdd => some .geopyspark

/-- The distinct libraries the notebook calls into. -/
def librariesUsed : List Library := (callSeq.filterMap libraryOf).dedup

/-- Running a straight-line call sequence under an exception oracle `raise`
(which call raises which exception, if any): the first raised exception
aborts the run and is returned unchanged; the notebook installs no handler
of its own. -/
def execCalls {E : Type} (raise : ExtCall → Option E) : List ExtCall → Option E
  | [] => none
  | c :: cs =>
      match raise c with
      | some e => some e
      | none => execCalls raise cs

/-- The exception, if any, with which a notebook run terminates under the
exception oracle `raise`. -/
def runNotebookExc {E : Type} (raise : ExtCall → Option E) : Option E :=
  execCalls raise callSeq

/-! ## Concrete oracles and results used by witnesses and counterexamples -/

/-- A decode oracle yielding the same well-formed Sentinel-2-like dataset
for every path: `uint16` band, UTM zone 32N metadata. -/
def constDecode : String → DecodedFile := fun _ =>
  { band1 := ⟨16, [100, 200]⟩
    bounds := ⟨499980, 4390200, 609780, 4500000⟩
    crsInit := "epsg:32632"
    nodata := some 0 }

/-- `constDecode` altered only at a path the notebook never reads. -/
def altDecode : String → DecodedFile := fun p =>
  if p = "/some/other/path.jp2" then
    { band1 := ⟨8, [1]⟩, bounds := ⟨9, 9, 9, 9⟩, crsInit := "epsg:4326", nodata := none }
  else constDecode p

/-- `constDecode` altered only at the first file `/tmp/B01.jp2` (different
band, bounds, CRS and nodata there). -/
def altMetaDecode : String → DecodedFile := fun p =>
  if p = "/tmp/B01.jp2" then
    { band1 := ⟨16, [3]⟩, bounds := ⟨7, 7, 8, 8⟩, crsInit := "epsg:4326", nodata := some 5 }
  else constDecode p

/-- A decode oracle whose second file has a wider dtype (`uint16`, value
256) than the first (`uint8`): stacking casts 256 down to 0. -/
def cexDecode : String → DecodedFile := fun p =>
  if p = "/tmp/B09.jp2" then
    { band1 := ⟨16, [256]⟩, bounds := ⟨0, 0, 1, 1⟩, crsInit := "epsg:32632", nodata := none }
  else
    { band1 := ⟨8, [5]⟩, bounds := ⟨0, 0, 1, 1⟩, crsInit := "epsg:32632", nodata := none }

/-- The run result of the notebook under `constDecode`. -/
def witnessResult : RunResult :=
  { extent := ⟨499980, 4390200, 609780, 4500000⟩
    projected_extent := ⟨⟨499980, 4390200, 609780, 4500000⟩, 32632⟩
    tile := ⟨⟨16, [[100, 200], [100, 200], [100, 200]]⟩, some 0⟩
    rdd := [(⟨⟨499980, 4390200, 609780, 4500000⟩, 32632⟩,
             ⟨⟨16, [[100, 200], [100, 200], [100, 200]]⟩, some 0⟩)]
    raster_layer :=
      ⟨LayerType.SPATIAL,
       [(⟨⟨499980, 4390200, 609780, 4500000⟩, 32632⟩,
         ⟨⟨16, [[100, 200], [100, 200], [100, 200]]⟩, some 0⟩)]⟩ }

/-- The run result of the notebook under `cexDecode`: the middle band has
been cast from `[256]` to `[0]`. -/
def cexResult : RunResult :=
  { extent := ⟨0, 0, 1, 1⟩
    projected_extent := ⟨⟨0, 0, 1, 1⟩, 32632⟩
    tile := ⟨⟨8, [[5], [0], [5]]⟩, none⟩
    rdd := [(⟨⟨0, 0, 1, 1⟩, 32632⟩, ⟨⟨8, [[5], [0], [5]]⟩, none⟩)]
    raster_layer :=
      ⟨LayerType.SPATIAL,
       [(⟨⟨0, 0, 1, 1⟩, 32632⟩, ⟨⟨8, [[5], [0], [5]]⟩, none⟩)]⟩ }

/-- An exception oracle under which only `rasterio.open("/tmp/B09.jp2")`
raises (exception modelled as the number 7). -/
def raiseAtOpenB09 : ExtCall → Option Nat := fun c =>
  if c = ExtCall.rasterioOpen "/tmp/B09.jp2" then some 7 else none

/-! ## Helper lemmas -/

/-- Unfolding the pipeline: the run is determined by the three decoded
files, with the decode loop leaving `f` bound to the last file's handle. -/
theorem runPipeline_unfold (decode : String → DecodedFile) :
    runPipeline decode =
      match pyInt (pySliceFrom (decode "/tmp/B10.jp2").crsInit 5) with
      | some code =>
          some ⟨Extent.ofBounds (decode "/tmp/B10.jp2").bounds,
                ⟨Extent.ofBounds (decode "/tmp/B10.jp2").bounds, code⟩,
                ⟨npStack (decode "/tmp/B01.jp2").band1.dtype
                   [(decode "/tmp/B01.jp2").band1, (decode "/tmp/B09.jp2").band1,
                    (decode "/tmp/B10.jp2").band1],
                 (decode "/tmp/B10.jp2").nodata⟩,
                [(⟨Extent.ofBounds (decode "/tmp/B10.jp2").bounds, code⟩,
                  ⟨npStack (decode "/tmp/B01.jp2").band1.dtype
                     [(decode "/tmp/B01.jp2").band1, (decode "/tmp/B09.jp2").band1,
                      (decode "/tmp/B10.jp2").band1],
                   (decode "/tmp/B10.jp2").nodata⟩)],
                ⟨LayerType.SPATIAL,
                 [(⟨Extent.ofBounds (decode "/tmp/B10.jp2").bounds, code⟩,
                   ⟨npStack (decode "/tmp/B01.jp2").band1.dtype
                      [(decode "/tmp/B01.jp2").band1, (decode "/tmp/B09.jp2").band1,
                       (decode "/tmp/B10.jp2").band1],
                    (decode "/tmp/B10.jp2").nodata⟩)]⟩⟩
      | none => none := by
  simp [runPipeline, decodeLoop, jp2s]

/-- Running a straight-line call sequence yields `some e` exactly when some
call raises `e` and every call before it succeeds. -/
theorem execCalls_eq_some_iff {E : Type} (raise : ExtCall → Option E)
    (l : List ExtCall) (e : E) :
    execCalls raise l = some e ↔
      ∃ pre c post, l = pre ++ c :: post ∧ (∀ x ∈ pre, raise x = none) ∧
        raise c = some e := by
  induction l with
  | nil =>
      constructor
      · intro h
        simp [execCalls] at h
      · rintro ⟨pre, c, post, hl, -, -⟩
        exact absurd hl.symm (List.append_ne_nil_of_right_ne_nil pre (by simp))
  | cons c cs ih =>
      cases hc : raise c with
      | some e0 =>
          simp only [execCalls, hc]
          constructor
          · intro h
            refine ⟨[], c, cs, rfl, by simp, ?_⟩
            rw [hc, h]
          · rintro ⟨pre, d, post, hl, hpre, hd⟩
            cases pre with
            | nil =>
                simp only [List.nil_append, List.cons.injEq] at hl
                rw [hl.1] at hc
                rw [hc] at hd
                exact hd
            | cons p pres =>
                simp only [List.cons_append, List.cons.injEq] at hl
                have hcnone := hpre p (by simp)
                rw [← hl.1] at hcnone
                rw [hcnone] at hc
                cases hc
      | none =>
          simp only [execCalls, hc]
          constructor
          · intro h
            obtain ⟨pre, d, post, hl, hpre, hd⟩ := ih.mp h
            refine ⟨c :: pre, d, post, by rw [hl, List.cons_append], ?_, hd⟩
            intro x hx
            rcases List.mem_cons.mp hx with rfl | hx
            · exact hc
            · exact hpre x hx
          · rintro ⟨pre, d, post, hl, hpre, hd⟩
            cases pre with
            | nil =>
                simp only [List.nil_append, List.cons.injEq] at hl
                rw [hl.1] at hc
                rw [hc] at hd
                cases hd
            | cons p pres =>
                simp only [List.cons_append, List.cons.injEq] at hl
                apply ih.mpr
                exact ⟨pres, d, post, hl.2, fun x hx => hpre x (List.mem_cons_of_mem p hx), hd⟩

/-! ## The claims -/

/-- C1: in every run the six pipeline steps (download, decode, stack, wrap,
construct RDD, construct layer) all occur, and the trace of step
executions is monotone in the fixed step order: no call of a later step
happens before every call of an earlier step, and no step is ever entered
again after a later step has begun (no feedback or retry). -/
theorem pipeline_steps_in_order :
    List.Sorted (fun a b : Step => a.idx ≤ b.idx) stepTrace ∧
    Step.download ∈ stepTrace ∧ Step.decode ∈ stepTrace ∧
    Step.stack ∈ stepTrace ∧ Step.wrap ∈ stepTrace ∧
    Step.constructRDD ∈ stepTrace ∧ Step.constructLayer ∈ stepTrace := by
  decide

/-- C2: the notebook installs no exception handler: a run terminates with
exception `e` exactly when some call raises `e` and every call before it
succeeded — the first raised exception propagates to the caller unchanged,
with no recovery, retry, or translation. -/
theorem notebook_exception_propagation {E : Type} (raise : ExtCall → Option E)
    (e : E) :
    runNotebookExc raise = some e ↔
      ∃ pre c post, callSeq = pre ++ c :: post ∧ (∀ x ∈ pre, raise x = none) ∧
        raise c = some e :=
  execCalls_eq_some_iff raise callSeq e

/-- Witness for C2: when `rasterio.open("/tmp/B09.jp2")` raises exception 7
and nothing else raises, the whole run terminates with exactly that
exception. -/
theorem notebook_exception_propagation_witness :
    runNotebookExc raiseAtOpenB09 = some 7 :=
  (notebook_exception_propagation raiseAtOpenB09 7).mpr
    ⟨[ExtCall.curl "http://sentinel-s2-l1c.s3.amazonaws.com/tiles/32/T/NM/2017/1/4/0/B01.jp2",
      ExtCall.curl "http://sentinel-s2-l1c.s3.amazonaws.com/tiles/32/T/NM/2017/1/4/0/B09.jp2",
      ExtCall.curl "http://sentinel-s2-l1c.s3.amazonaws.com/tiles/32/T/NM/2017/1/4/0/B10.jp2",
      ExtCall.geopysparkConf, ExtCall.sparkContext,
      ExtCall.rasterioOpen "/tmp/B01.jp2", ExtCall.rasterioRead "/tmp/B01.jp2"],
     ExtCall.rasterioOpen "/tmp/B09.jp2",
     [ExtCall.rasterioRead "/tmp/B09.jp2",
      ExtCall.rasterioOpen "/tmp/B10.jp2", ExtCall.rasterioRead "/tmp/B10.jp2",
      ExtCall.npArrayCall, ExtCall.gpsExtent, ExtCall.crsToDict, ExtCall.intCall,
      ExtCall.gpsProjectedExtent, ExtCall.crsToDict, ExtCall.crsToDict,
      ExtCall.intCall, ExtCall.tileFromNumpyArray, ExtCall.parallelize,
      ExtCall.fromNumpyRdd],
     by decide, by decide, by decide⟩

/-- Counterexample to C3 as stated: the notebook calls into four external
library APIs (rasterio, numpy, geopyspark, pyspark), not exactly two. -/
theorem two_libraries_false :
    librariesUsed.length = 4 ∧ librariesUsed.length ≠ 2 := by
  decide

/-- C3 (amended): the externally visible surface is exactly three HTTP
download URLs, all on the bucket `sentinel-s2-l1c.s3.amazonaws.com`, plus
calls into four external library APIs: rasterio (raster decoding), numpy
(array construction), and geopyspark together with pyspark (distributed
geospatial processing). -/
theorem external_surface :
    curlURLs.length = 3 ∧
    (∀ u ∈ curlURLs, bucketPrefix.data.isPrefixOf u.data = true) ∧
    (∀ c ∈ callSeq, (∃ u ∈ curlURLs, c = ExtCall.curl u) ∨ c = ExtCall.intCall ∨
      (libraryOf c).isSome = true) ∧
    librariesUsed.length = 4 ∧
    Library.rasterio ∈ librariesUsed ∧ Library.numpy ∈ librariesUsed ∧
    Library.geopyspark ∈ librariesUsed ∧ Library.pyspark ∈ librariesUsed := by
  refine ⟨rfl, by decide, ?_, by decide, by decide, by decide, by decide, by decide⟩
  decide

/-- Counterexample to C7 as stated: the download step is not a single call
into an external facility — it issues three curl invocations. -/
theorem single_call_per_step_false :
    stepCallCount Step.download = 3 ∧ stepCallCount Step.download ≠ 1 := by
  decide

/-- C7 (amended): each pipeline step is a fixed straight-line sequence of
calls rather than always a single one: download issues three curl
commands, decode makes six rasterio calls (an open and a read per file),
wrap makes five calls (Extent, crs.to_dict, int, ProjectedExtent,
Tile.from_numpy_array), while stack, RDD construction and layer
construction are each a single call; the steps run in the fixed order with
no feedback, retry, branching, or state machine. -/
theorem step_call_counts :
    stepCallCount Step.download = 3 ∧ stepCallCount Step.decode = 6 ∧
    stepCallCount Step.stack = 1 ∧ stepCallCount Step.wrap = 5 ∧
    stepCallCount Step.constructRDD = 1 ∧ stepCallCount Step.constructLayer = 1 ∧
    List.Sorted (fun a b : Step => a.idx ≤ b.idx) stepTrace := by
  decide

/-- C4: whenever the run completes, the RDD is built from exactly one
key-value pair whose key is the ProjectedExtent built from the decoder's
metadata (extent plus EPSG code parsed from the CRS of the last handle)
and whose value is the Tile wrapping the stacked multiband array with the
decoder's nodata value; the layer is built from exactly that one-element
RDD with the SPATIAL layer type. -/
theorem layer_single_pair (decode : String → DecodedFile) (r : RunResult)
    (h : runPipeline decode = some r) :
    r.raster_layer.layer_type = LayerType.SPATIAL ∧
    r.raster_layer.rdd = [(r.projected_extent, r.tile)] ∧
    r.raster_layer.rdd.length = 1 ∧
    r.rdd = [(r.projected_extent, r.tile)] ∧
    r.projected_extent.extent = Extent.ofBounds (decode "/tmp/B10.jp2").bounds ∧
    pyInt (pySliceFrom (decode "/tmp/B10.jp2").crsInit 5) =
      some r.projected_extent.epsg ∧
    r.tile.cells = npStack (decode "/tmp/B01.jp2").band1.dtype
      [(decode "/tmp/B01.jp2").band1, (decode "/tmp/B09.jp2").band1,
       (decode "/tmp/B10.jp2").band1] ∧
    r.tile.no_data_value = (decode "/tmp/B10.jp2").nodata := by
  rw [runPipeline_unfold] at h
  cases hp : pyInt (pySliceFrom (decode "/tmp/B10.jp2").crsInit 5) with
  | none => rw [hp] at h; cases h
  | some code =>
      rw [hp] at h
      injection h with h
      subst h
      exact ⟨rfl, rfl, rfl, rfl, rfl, rfl, rfl, rfl⟩

/-- Witness for C4: the concrete run under `constDecode`. -/
theorem layer_single_pair_witness :
    runPipeline constDecode = some witnessResult ∧
    witnessResult.raster_layer.layer_type = LayerType.SPATIAL ∧
    witnessResult.raster_layer.rdd =
      [(witnessResult.projected_extent, witnessResult.tile)] ∧
    witnessResult.raster_layer.rdd.length = 1 :=
  ⟨by decide,
   (layer_single_pair constDecode witnessResult (by decide)).1,
   (layer_single_pair constDecode witnessResult (by decide)).2.1,
   (layer_single_pair constDecode witnessResult (by decide)).2.2.1⟩

/-- C5: when the `init` entry of the last handle's CRS dictionary is the
string `epsg:` followed by a nonempty run of decimal digits, the run
completes; slicing off the first five characters yields exactly the digit
string, the EPSG code is its decimal value, and the extent's four fields
equal the four components of the decoder's reported bounds. -/
theorem epsg_and_extent_from_metadata (decode : String → DecodedFile) (ds : String)
    (hinit : (decode "/tmp/B10.jp2").crsInit = "epsg:" ++ ds)
    (hne : ds.data ≠ []) (hdig : ds.data.all Char.isDigit = true) :
    pySliceFrom (decode "/tmp/B10.jp2").crsInit 5 = ds ∧
    (runPipeline decode).map (fun r => r.projected_extent.epsg) =
      some (ds.data.foldl (fun a c => a * 10 + digitVal c) 0) ∧
    (runPipeline decode).map (fun r => r.extent.xmin) =
      some (decode "/tmp/B10.jp2").bounds.left ∧
    (runPipeline decode).map (fun r => r.extent.ymin) =
      some (decode "/tmp/B10.jp2").bounds.bottom ∧
    (runPipeline decode).map (fun r => r.extent.xmax) =
      some (decode "/tmp/B10.jp2").bounds.right ∧
    (runPipeline decode).map (fun r => r.extent.ymax) =
      some (decode "/tmp/B10.jp2").bounds.top ∧
    (runPipeline decode).map (fun r => r.projected_extent.extent) =
      some (Extent.ofBounds (decode "/tmp/B10.jp2").bounds) := by
  have hslice : pySliceFrom (decode "/tmp/B10.jp2").crsInit 5 = ds := by
    rw [hinit]
    unfold pySliceFrom
    rw [String.data_append]
    rfl
  have hpy : pyInt ds = some (ds.data.foldl (fun a c => a * 10 + digitVal c) 0) := by
    unfold pyInt
    rw [if_pos ⟨hne, hdig⟩]
  rw [runPipeline_unfold, hslice, hpy]
  exact ⟨rfl, rfl, rfl, rfl, rfl, rfl, rfl⟩

/-- Witness for C5: `constDecode` reports CRS `epsg:32632`, and the run
yields EPSG code 32632 and the extent copied from the bounds. -/
theorem epsg_and_extent_from_metadata_witness :
    pySliceFrom (constDecode "/tmp/B10.jp2").crsInit 5 = "32632" ∧
    (runPipeline constDecode).map (fun r => r.projected_extent.epsg) =
      some ("32632".data.foldl (fun a c => a * 10 + digitVal c) 0) ∧
    (runPipeline constDecode).map (fun r => r.extent.xmin) =
      some (constDecode "/tmp/B10.jp2").bounds.left ∧
    (runPipeline constDecode).map (fun r => r.extent.ymin) =
      some (constDecode "/tmp/B10.jp2").bounds.bottom ∧
    (runPipeline constDecode).map (fun r => r.extent.xmax) =
      some (constDecode "/tmp/B10.jp2").bounds.right ∧
    (runPipeline constDecode).map (fun r => r.extent.ymax) =
      some (constDecode "/tmp/B10.jp2").bounds.top ∧
    (runPipeline constDecode).map (fun r => r.projected_extent.extent) =
      some (Extent.ofBounds (constDecode "/tmp/B10.jp2").bounds) :=
  epsg_and_extent_from_metadata constDecode "32632" (by decide) (by decide) (by decide)

/-- Counterexample to C6 as stated: under `cexDecode` the decoded first
band of the second file is `[256]` (as `uint16`), but the stacked band at
index 1 is `[0]` — the stack casts every band to the first band's dtype,
so band `i` is not always equal to the decoded first band of file `i`. -/
theorem stack_band_equality_false :
    (runPipeline cexDecode).map (fun r => r.tile.cells.bands[1]?) =
      some (some [0]) ∧
    (cexDecode "/tmp/B09.jp2").band1.data = [256] ∧
    ([0] : List Nat) ≠ [256] := by
  decide

/-- C6 (amended): the stacked array's first dimension has length equal to
the number of input files (three), and its band at index `i` equals the
decoded first band of the `i`-th file in list order (B01, B09, B10), cast
elementwise to the first band's dtype — so stacking preserves the listed
file order. -/
theorem stack_preserves_order (decode : String → DecodedFile) (r : RunResult)
    (h : runPipeline decode = some r) :
    r.tile.cells.bands.length = jp2s.length ∧
    jp2s.length = 3 ∧
    r.tile.cells.bands =
      [(decode "/tmp/B01.jp2").band1.data.map
         (castTo (decode "/tmp/B01.jp2").band1.dtype),
       (decode "/tmp/B09.jp2").band1.data.map
         (castTo (decode "/tmp/B01.jp2").band1.dtype),
       (decode "/tmp/B10.jp2").band1.data.map
         (castTo (decode "/tmp/B01.jp2").band1.dtype)] := by
  rw [runPipeline_unfold] at h
  cases hp : pyInt (pySliceFrom (decode "/tmp/B10.jp2").crsInit 5) with
  | none => rw [hp] at h; cases h
  | some code =>
      rw [hp] at h
      injection h with h
      subst h
      exact ⟨rfl, rfl, rfl⟩

/-- Witness for C6 (amended): the concrete run under `constDecode`. -/
theorem stack_preserves_order_witness :
    runPipeline constDecode = some witnessResult ∧
    witnessResult.tile.cells.bands.length = jp2s.length ∧
    witnessResult.tile.cells.bands =
      [(constDecode "/tmp/B01.jp2").band1.data.map
         (castTo (constDecode "/tmp/B01.jp2").band1.dtype),
       (constDecode "/tmp/B09.jp2").band1.data.map
         (castTo (constDecode "/tmp/B01.jp2").band1.dtype),
       (constDecode "/tmp/B10.jp2").band1.data.map
         (castTo (constDecode "/tmp/B01.jp2").band1.dtype)] :=
  ⟨by decide,
   (stack_preserves_order constDecode witnessResult (by decide)).1,
   (stack_preserves_order constDecode witnessResult (by decide)).2.2⟩

/-- C8: the notebook is deterministic: two runs whose decode oracles agree
on the three downloaded files produce identical results (extent, EPSG
code, nodata value and stacked tile array included), whatever the oracles
do elsewhere. -/
theorem run_depends_only_on_inputs (d1 d2 : String → DecodedFile)
    (h : ∀ p ∈ jp2s, d1 p = d2 p) :
    runPipeline d1 = runPipeline d2 := by
  have h1 := h "/tmp/B01.jp2" (by decide)
  have h9 := h "/tmp/B09.jp2" (by decide)
  have h10 := h "/tmp/B10.jp2" (by decide)
  rw [runPipeline_unfold d1, runPipeline_unfold d2, h1, h9, h10]

/-- Witness for C8: `altDecode` differs from `constDecode` only at a path
the notebook never reads, and the runs coincide. -/
theorem run_depends_only_on_inputs_witness :
    runPipeline constDecode = runPipeline altDecode :=
  run_depends_only_on_inputs constDecode altDecode (by decide)

/-- C9: the decode loop leaves the loop variable `f` bound to the handle of
the last file `/tmp/B10.jp2`; the extent, EPSG code and nodata value are
read exclusively from that handle (two oracles agreeing there yield the
same layer metadata, whatever the first two files contain), and they equal
that handle's bounds, parsed CRS and nodata. -/
theorem metadata_from_last_file (d1 d2 : String → DecodedFile)
    (h : d1 "/tmp/B10.jp2" = d2 "/tmp/B10.jp2") :
    (decodeLoop d1 jp2s [] none).2 = some (d1 "/tmp/B10.jp2") ∧
    metadataOf (runPipeline d1) = metadataOf (runPipeline d2) ∧
    ∀ r, runPipeline d1 = some r →
      r.extent = Extent.ofBounds (d1 "/tmp/B10.jp2").bounds ∧
      r.tile.no_data_value = (d1 "/tmp/B10.jp2").nodata ∧
      pyInt (pySliceFrom (d1 "/tmp/B10.jp2").crsInit 5) =
        some r.projected_extent.epsg := by
  refine ⟨by simp [decodeLoop, jp2s], ?_, ?_⟩
  · rw [runPipeline_unfold d1, runPipeline_unfold d2, h]
    cases hp : pyInt (pySliceFrom (d2 "/tmp/B10.jp2").crsInit 5) <;>
      simp [hp, metadataOf]
  · intro r hr
    rw [runPipeline_unfold] at hr
    cases hp : pyInt (pySliceFrom (d1 "/tmp/B10.jp2").crsInit 5) with
    | none => rw [hp] at hr; cases hr
    | some code =>
        rw [hp] at hr
        injection hr with hr
        subst hr
        exact ⟨rfl, rfl, rfl⟩

/-- Witness for C9: `altMetaDecode` changes the entire metadata of the
first file, yet the layer metadata of the run is unchanged. -/
theorem metadata_from_last_file_witness :
    (decodeLoop constDecode jp2s [] none).2 = some (constDecode "/tmp/B10.jp2") ∧
    metadataOf (runPipeline constDecode) = metadataOf (runPipeline altMetaDecode) :=
  ⟨(metadata_from_last_file constDecode altMetaDecode (by decide)).1,
   (metadata_from_last_file constDecode altMetaDecode (by decide)).2.1⟩

/-- Every cast pixel value fits in the target width. -/
theorem castTo_lt (w v : Nat) : castTo w v < 2 ^ w :=
  Nat.mod_lt v (pow_pos (by norm_num : (0 : Nat) < 2) w)

/-- C10: the stacked array's dtype is forced to the first decoded band's
dtype whatever the other bands' dtypes are; every band is converted
elementwise to that dtype, and in particular every stacked value lies
below 2 to that width. -/
theorem stacked_dtype_forced (decode : String → DecodedFile) (r : RunResult)
    (h : runPipeline decode = some r) :
    r.tile.cells.dtype = (decode "/tmp/B01.jp2").band1.dtype ∧
    r.tile.cells.bands =
      [(decode "/tmp/B01.jp2").band1.data.map
         (castTo (decode "/tmp/B01.jp2").band1.dtype),
       (decode "/tmp/B09.jp2").band1.data.map
         (castTo (decode "/tmp/B01.jp2").band1.dtype),
       (decode "/tmp/B10.jp2").band1.data.map
         (castTo (decode "/tmp/B01.jp2").band1.dtype)] ∧
    ∀ band ∈ r.tile.cells.bands, ∀ v ∈ band,
      v < 2 ^ (decode "/tmp/B01.jp2").band1.dtype := by
  rw [runPipeline_unfold] at h
  cases hp : pyInt (pySliceFrom (decode "/tmp/B10.jp2").crsInit 5) with
  | none => rw [hp] at h; cases h
  | some code =>
      rw [hp] at h
      injection h with h
      subst h
      refine ⟨rfl, rfl, ?_⟩
      intro band hband v hv
      have hband2 :
          band = (decode "/tmp/B01.jp2").band1.data.map
            (castTo (decode "/tmp/B01.jp2").band1.dtype) ∨
          band = (decode "/tmp/B09.jp2").band1.data.map
            (castTo (decode "/tmp/B01.jp2").band1.dtype) ∨
          band = (decode "/tmp/B10.jp2").band1.data.map
            (castTo (decode "/tmp/B01.jp2").band1.dtype) := by
        simpa [npStack] using hband
      rcases hband2 with rfl | rfl | rfl <;>
        · obtain ⟨w, -, rfl⟩ := List.mem_map.mp hv
          exact castTo_lt _ _

/-- Witness for C10: under `cexDecode` the second band's dtype (16 bits)
differs from the first's (8 bits); the stacked dtype is 8 and the value
256 has been converted to 0. -/
theorem stacked_dtype_forced_witness :
    runPipeline cexDecode = some cexResult ∧
    cexResult.tile.cells.dtype = (cexDecode "/tmp/B01.jp2").band1.dtype ∧
    cexResult.tile.cells.bands =
      [(cexDecode "/tmp/B01.jp2").band1.data.map
         (castTo (cexDecode "/tmp/B01.jp2").band1.dtype),
       (cexDecode "/tmp/B09.jp2").band1.data.map
         (castTo (cexDecode "/tmp/B01.jp2").band1.dtype),
       (cexDecode "/tmp/B10.jp2").band1.data.map
         (castTo (cexDecode "/tmp/B01.jp2").band1.dtype)] :=
  ⟨by decide,
   (stacked_dtype_forced cexDecode cexResult (by decide)).1,
   (stacked_dtype_forced cexDecode cexResult (by decide)).2.1⟩

end SentinelNotebook
